import Mathlib

/-!
Verification of the LN2 tape test stand control software
(`QD_ui.py`, `QDai.py`, `TDK_PSU_Control.py`) against its specification.

Instrument lines are modelled as `List Char`; Python string operations
(`strip`, `split(",")`, `float(...)`, `int(...)`, `round(x, 3)`) are embedded
as executable Lean functions over `List Char` and `ℚ`.  Python floats are
idealised as rationals: all inputs appearing in the claims are exact
decimals, where double-precision rounding plays no role.  Network I/O is
embedded by explicit inputs: a read that raised is `none`, a connection
attempt is a boolean, and the commands written to a socket are collected
into a list.
-/

attribute [local semireducible] Rat.mul Rat.add Rat.sub Rat.inv

namespace LN2

/-- Python whitespace characters recognised by `str.strip()`. -/
def isPySpace (c : Char) : Bool :=
  c = ' ' || c = '\t' || c = '\n' || c = '\r' || c = '\x0b' || c = '\x0c'

/-- Embedding of Python `str.strip()`: drop leading and trailing whitespace. -/
def pyStrip (l : List Char) : List Char :=
  ((l.dropWhile isPySpace).reverse.dropWhile isPySpace).reverse

/-- Split a character list on a separator character, keeping empty fields,
as Python `str.split(sep)` does for a one-character separator. -/
def splitOnChar (sep : Char) : List Char → List (List Char)
  | [] => [[]]
  | c :: cs =>
    match splitOnChar sep cs with
    | [] => [[]]
    | g :: gs => if c = sep then [] :: g :: gs else (c :: g) :: gs

/-- Embedding of the Python tuple unpacking `t_str, v_str = data.split(",")`:
succeeds exactly when the split yields two fields (otherwise the statement
raises `ValueError`). -/
def splitTwo (l : List Char) : Option (List Char × List Char) :=
  match splitOnChar ',' l with
  | [a, b] => some (a, b)
  | _ => none

/-- First comma-separated field of a line, as `err.split(",", 1)[0]`. -/
def firstField (l : List Char) : List Char :=
  match splitOnChar ',' l with
  | [] => []
  | f :: _ => f

/-- Numeric value of a decimal digit character. -/
def digitVal (c : Char) : ℕ := c.toNat - 48

/-- All characters are decimal digits. -/
def allDigits (l : List Char) : Bool := l.all fun c => c.isDigit

/-- Value of a digit string read in base 10. -/
def digitsVal (l : List Char) : ℕ := l.foldl (fun a c => 10 * a + digitVal c) 0

/-- Embedding of Python `float(...)` on an unsigned plain decimal literal:
digits with an optional single point, at least one digit present.
(Exponent and special forms never appear in the data streams modelled here.) -/
def parseUnsignedFloat (l : List Char) : Option ℚ :=
  match splitOnChar '.' l with
  | [ip] => if !ip.isEmpty && allDigits ip then some (digitsVal ip : ℚ) else none
  | [ip, fp] =>
    if (!ip.isEmpty || !fp.isEmpty) && allDigits ip && allDigits fp then
      some ((digitsVal ip : ℚ) + (digitsVal fp : ℚ) / ((10 : ℚ) ^ fp.length))
    else none
  | _ => none

/-- Embedding of Python `float(str)` on plain decimal literals: strip
whitespace, optional sign, unsigned decimal. Returns `none` where the Python
call raises `ValueError`. -/
def parseFloatQ (s : List Char) : Option ℚ :=
  match pyStrip s with
  | '-' :: rest => (parseUnsignedFloat rest).map (fun q => -q)
  | '+' :: rest => parseUnsignedFloat rest
  | t => parseUnsignedFloat t

/-- Embedding of Python `int(str)`: strip whitespace, optional sign, digits.
Returns `none` where the Python call raises `ValueError`. -/
def parsePyInt (s : List Char) : Option ℤ :=
  match pyStrip s with
  | '-' :: rest =>
    if !rest.isEmpty && allDigits rest then some (-(digitsVal rest : ℤ)) else none
  | '+' :: rest =>
    if !rest.isEmpty && allDigits rest then some (digitsVal rest : ℤ) else none
  | t => if !t.isEmpty && allDigits t then some (digitsVal t : ℤ) else none

/-- Floor of a rational as an integer (the denominator is positive, so
floor division of numerator by denominator is the floor). -/
def ratFloor (q : ℚ) : ℤ := Int.fdiv q.num (q.den : ℤ)

/-- Round a rational to the nearest integer, ties to even — the rounding
mode of Python 3 `round`. -/
def roundHalfEven (q : ℚ) : ℤ :=
  let f := ratFloor q
  let r := q - (f : ℚ)
  if r < 1 / 2 then f
  else if 1 / 2 < r then f + 1
  else if f % 2 = 0 then f else f + 1

/-- Embedding of Python `round(x, 3)` on exact decimal inputs. -/
def pyRound3 (q : ℚ) : ℚ := (roundHalfEven (q * 1000) : ℚ) / 1000

/-- The literal quench-marker token `"QD"` streamed by the meter. -/
def qdToken : List Char := ['Q', 'D']

/-- One CSV row written by an acquisition loop: raw timestamp field,
derived current, raw voltage field (`csv_writer.writerow([t_str, a, v_str])`). -/
structure Row where
  t : List Char
  a : ℚ
  v : List Char
  deriving DecidableEq

/-!
SCPI layer, from `TDK_PSU_Control.py`.  Commands written with `scpi_write`
never wait for a reply; queries (`scpi_query`) consume one reply line from
the instrument, modelled as explicit reply inputs.  Each command string of
the source is one constructor; numeric payloads are carried exactly.
-/

/-- SCPI commands written by `TDK_PSU_Control.py`, one constructor per
command string of the source. -/
inductive SCPICmd where
  | sysLangSCPI
  | cls
  | ttltrgOff
  | abor
  | currLevZero
  | currModeWave
  | progWaveCurr (vals : List ℚ)
  | progWaveTime (vals : List ℚ)
  | progStepAuto
  | progCounInf
  | progCoun (n : ℤ)
  | progStor (n : ℤ)
  | trigSourBus
  | trigDel (d : ℚ)
  | initContOn
  | initContOff
  | outpOn
  | initCmd
  | ttltrgFstr
  | statOperCondQ
  | systErrQ
  | trg
  | outpOff
  deriving DecidableEq

/-- Diagnostics printed by `check_error_queue`. -/
inductive Diag where
  | unexpectedErrResp (resp : List Char)
  | psuError (resp : List Char)
  deriving DecidableEq

/-- How the `SYST:ERR?` drain loop of `check_error_queue` ended. -/
inductive DrainOutcome where
  | zeroCode
  | unparseable (resp : List Char)
  | starved
  deriving DecidableEq

/-- Result of `check_error_queue`: the `SYST:ERR?` queries issued, the
diagnostics printed, and how the loop ended. -/
structure DrainResult where
  cmds : List SCPICmd
  printed : List Diag
  outcome : DrainOutcome
  deriving DecidableEq

/-- Embedding of `check_error_queue` (TDK_PSU_Control.py, lines 48-60):
poll `SYST:ERR?`; parse the first comma-separated field as an integer; a
parse failure prints an "Unexpected SYST:ERR? response" diagnostic and
breaks; code 0 breaks silently; a non-zero code prints a "PSU error"
diagnostic and polls again.  `replies` is the stream of reply lines
(already LF-stripped by `scpi_query`, which also calls `.strip()`);
running out of replies models a blocking read that times out
(`starved`, an exception in the source). -/
def check_error_queue : List (List Char) → DrainResult
  | [] => ⟨[.systErrQ], [], .starved⟩
  | r :: rest =>
    match parsePyInt (firstField (pyStrip r)) with
    | none => ⟨[.systErrQ], [.unexpectedErrResp (pyStrip r)], .unparseable (pyStrip r)⟩
    | some 0 => ⟨[.systErrQ], [], .zeroCode⟩
    | some _ =>
      ⟨.systErrQ :: (check_error_queue rest).cmds,
       .psuError (pyStrip r) :: (check_error_queue rest).printed,
       (check_error_queue rest).outcome⟩

/-- The `counter` argument of `program_current_wave_sequence`:
`Union[int, str]` in the source. -/
inductive CounterArg where
  | int (n : ℤ)
  | str (s : List Char)
  deriving DecidableEq

/-- Embedding of Python `str.upper()` restricted to ASCII. -/
def pyUpper (l : List Char) : List Char := l.map Char.toUpper

/-- The `PROG:COUN` command derived from the counter argument:
a string starting (after upper-casing) with `INF` selects `PROG:COUN INF`,
otherwise `int(counter)` is taken (`none` models the `ValueError`). -/
def counterCmd : CounterArg → Option SCPICmd
  | .int n => some (.progCoun n)
  | .str s =>
    if List.isPrefixOf ['I', 'N', 'F'] (pyUpper s) then some .progCounInf
    else (parsePyInt s).map .progCoun

/-- Exceptions surfaced by the PSU control functions: `transport` stands for
socket connect/timeout/close errors, `valueError` for Python `ValueError`. -/
inductive PyErr where
  | transport
  | valueError
  deriving DecidableEq

/-- Arguments of `program_current_wave_sequence` (ip/port omitted: the
connection outcome is the explicit `connectOk` input). -/
structure ProgArgs where
  steps : List (ℚ × ℚ)
  i_start : ℚ
  counter : CounterArg
  trigger_delay : ℚ
  continuous_init : Bool
  store_cell : Option ℤ

/-- Result of `program_current_wave_sequence`: the commands actually written
(on an exception, those written before it was raised), the diagnostics
printed by the error-queue drain, and the exception if one was raised
(`none` = the function returned normally). -/
structure ProgResult where
  cmds : List SCPICmd
  printed : List Diag
  err : Option PyErr
  deriving DecidableEq

/-- Embedding of `program_current_wave_sequence` (TDK_PSU_Control.py, lines
79-167).  In source order: connect; write the fixed preamble; upload the
current and time lists taken from `steps`; write `PROG:COUN` (where
`int(counter)` on a bad string raises); optionally store; configure the BUS
trigger, continuous-init mode and output; `INIT`; re-enable the TTL
trigger; query `STAT:OPER:COND?` (whose reply must parse as `int`); drain
the error queue; return.  The commented-out `*TRG` of the source is not
sent.  `statusReply` and `errReplies` are the instrument's reply lines. -/
def program_current_wave_sequence (a : ProgArgs) (connectOk : Bool)
    (statusReply : List Char) (errReplies : List (List Char)) : ProgResult :=
  if connectOk = false then ⟨[], [], some .transport⟩ else
  let curr_points := a.steps.map Prod.fst
  let time_points := a.steps.map Prod.snd
  let pre : List SCPICmd :=
    [.sysLangSCPI, .cls, .ttltrgOff, .abor, .currLevZero, .currModeWave,
     .progWaveCurr curr_points, .progWaveTime time_points, .progStepAuto]
  match counterCmd a.counter with
  | none => ⟨pre, [], some .valueError⟩
  | some cc =>
    let storeCmds : List SCPICmd :=
      match a.store_cell with
      | some n => [.progStor n]
      | none => []
    let mid : List SCPICmd :=
      [cc] ++ storeCmds ++
      [.trigSourBus, .trigDel a.trigger_delay,
       (if a.continuous_init then .initContOn else .initContOff),
       .outpOn, .initCmd, .ttltrgFstr, .statOperCondQ]
    match parsePyInt (pyStrip statusReply) with
    | none => ⟨pre ++ mid, [], some .valueError⟩
    | some _status =>
      let d := check_error_queue errReplies
      ⟨pre ++ mid ++ d.cmds, d.printed,
       if d.outcome = DrainOutcome.starved then some .transport else none⟩

/-- Commands sent by `trigger_PSU` (TDK_PSU_Control.py, lines 169-173). -/
def trigger_PSU_cmds : List SCPICmd := [.sysLangSCPI, .trg]

/-- Embedding of `trigger_PSU`: connect, send the language select and the
software trigger; nothing is read back.  Its output does not depend on any
instrument response. -/
def trigger_PSU (connectOk : Bool) : Except PyErr (List SCPICmd) :=
  if connectOk then .ok trigger_PSU_cmds else .error .transport

/-- Embedding of `abort_PSU` (TDK_PSU_Control.py, lines 175-180): connect,
then write abort-sequence, output-off and a trailing trigger.  The function
never reads from the socket, so the commands sent are independent of the
`instrumentReplies` the device may have pushed (instrument-side rejection
cannot raise here); only a failed connection raises. -/
def abort_PSU (connectOk : Bool) (_instrumentReplies : List (List Char)) :
    Except PyErr (List SCPICmd) :=
  if connectOk then .ok [.abor, .outpOff, .trg] else .error .transport

/-!
Class-based acquisition loop `KeithleyQD_UI.read_data` (QDai.py, lines
124-150).  Per iteration: read a line (`none` models a read that raised);
strip it; on the quench token set `qd` and `continue`; otherwise split into
two fields, derive `current = (t - 1) * rate` when no quench has been seen
and `0` afterwards (no rounding in this variant), append the row to the
log, and every 20th accepted sample append to the display buffers (the
voltage conversion there can itself raise, after the row was already
written).  Any failure is printed and the loop continues; this loop has no
self-termination logic.
-/

namespace KeithleyQD_UI

/-- Loop-local state of `KeithleyQD_UI.read_data` together with the
resources it writes (log rows, display buffers). -/
structure ReadState where
  i : ℕ
  qd : Bool
  running : Bool
  log : List Row
  currents : List ℚ
  voltages : List ℚ
  deriving DecidableEq

/-- Initial state: `i = 0`, `qd = 0`, `measurement_running` already set true
by `start_measurement`, empty log and display buffers. -/
def readInit : ReadState := ⟨0, false, true, [], [], []⟩

/-- Tail of an iteration after a row is accepted: write the row, then on
every 20th sample convert the voltage field (which can raise after the
write) and append to the display buffers; `i` increments only on full
success (`i += 1` sits after the decimation block inside the `try`). -/
def afterWrite (st : ReadState) (ts : List Char) (current : ℚ) (vs : List Char) :
    ReadState :=
  if st.i % 20 = 0 then
    match parseFloatQ vs with
    | none => { st with log := st.log ++ [⟨ts, current, vs⟩] }
    | some v =>
      { st with log := st.log ++ [⟨ts, current, vs⟩],
                currents := st.currents ++ [current],
                voltages := st.voltages ++ [v], i := st.i + 1 }
  else { st with log := st.log ++ [⟨ts, current, vs⟩], i := st.i + 1 }

/-- Split-and-derive stage of an iteration on an already-stripped non-marker
line: unpack the two fields, derive the current (`(t - 1) * rate` before a
quench, `0` after — no rounding in this variant), and accept the row; a
failed unpack or float conversion is printed and the iteration ends. -/
def procSplit (rate : ℚ) (st : ReadState) (data : List Char) : ReadState :=
  match splitTwo data with
  | none => st
  | some (ts, vs) =>
    if st.qd = false then
      match parseFloatQ ts with
      | none => st
      | some t => afterWrite st ts ((t - 1) * rate) vs
    else afterWrite st ts 0 vs

/-- One iteration of `KeithleyQD_UI.read_data` on one read result
(`none` = the read raised): on the quench token set `qd` and `continue`,
otherwise process the line. -/
def read_data_iter (rate : ℚ) (st : ReadState) (read : Option (List Char)) :
    ReadState :=
  if st.running = false then st else
  match read with
  | none => st
  | some raw =>
    if pyStrip raw = qdToken then { st with qd := true }
    else procSplit rate st (pyStrip raw)

/-- Run the class-based acquisition loop over a list of read results. -/
def read_data_run (rate : ℚ) (st : ReadState) :
    List (Option (List Char)) → ReadState
  | [] => st
  | r :: rest => read_data_run rate (read_data_iter rate st r) rest

end KeithleyQD_UI

/-!
Module-level acquisition loop `read_data` (QD_ui.py, lines 166-204) and the
coordinator functions around it.  Per iteration: `i += 1`; read a line; on
the quench token set `qd = 1` and record `qd_time` but fall through; split
the line into two fields; derive `a_str = round((t - 1) * rate, 3)` before a
quench and `0` after; write and flush the row; every 15th iteration push to
the display buffers (where converting the voltage field can raise after the
row was written) and reset `i`; stop once a quench was seen and more than
1 s has passed since `qd_time`.  Any exception increments `error`, and past
3 errors `stop_measurement()` is invoked — abstracted here as setting
`measurement_running = false` and the `stopCalled` flag (its further
side effects are modelled by `stop_measurement_actions` below).
-/

namespace QD_ui

/-- Loop-local state of the module-level `read_data` together with the
shared flags and resources it writes. -/
structure ReadState where
  i : ℕ
  qd : Bool
  qdTime : ℚ
  error : ℕ
  running : Bool
  stopCalled : Bool
  stoppedByQuench : Bool
  log : List Row
  currents : List ℚ
  voltages : List ℚ
  deriving DecidableEq

/-- Initial state: `i = 0; qd = 0; qd_time = 0; error = 0`,
`measurement_running` already set true by `start_measurement`. -/
def readInit : ReadState := ⟨0, false, 0, 0, true, false, false, [], [], []⟩

/-- The `except` branch of an iteration: `error += 1`, and past 3 errors
`stop_measurement()` is called (which sets `measurement_running = false`). -/
def errStep (st : ReadState) : ReadState :=
  if st.error + 1 > 3 then
    { st with error := st.error + 1, running := false, stopCalled := true }
  else { st with error := st.error + 1 }

/-- The quench-grace check closing an iteration that fully succeeded:
`if qd == 1 and qd_time + 1 < time.time(): measurement_running = False`. -/
def quenchGate (st : ReadState) (now : ℚ) : ReadState :=
  if st.qd = true ∧ st.qdTime + 1 < now then
    { st with running := false, stoppedByQuench := true }
  else st

/-- Tail of an iteration after a row is accepted: write and flush the row;
on every 15th iteration append `float(a_str)` to `currents`, then
`float(v_str)` to `voltages` (which can raise in between) and reset `i`;
finally run the quench-grace check. -/
def afterWrite (st : ReadState) (now : ℚ) (ts : List Char) (a : ℚ)
    (vs : List Char) : ReadState :=
  if st.i % 15 = 0 then
    match parseFloatQ vs with
    | none =>
      errStep { st with log := st.log ++ [⟨ts, a, vs⟩],
                        currents := st.currents ++ [a] }
    | some v =>
      quenchGate { st with log := st.log ++ [⟨ts, a, vs⟩],
                           currents := st.currents ++ [a],
                           voltages := st.voltages ++ [v], i := 0 } now
  else quenchGate { st with log := st.log ++ [⟨ts, a, vs⟩] } now

/-- Split-and-derive stage of an iteration, after the quench-token check
updated the state: unpack the two fields, derive
`a_str = round((t - 1) * rate, 3)` before a quench and `0` after, and
accept the row; a failed unpack or float conversion takes the `except`
branch. -/
def procSplit (rate : ℚ) (st : ReadState) (now : ℚ) (data : List Char) :
    ReadState :=
  match splitTwo data with
  | none => errStep st
  | some (ts, vs) =>
    if st.qd = false then
      match parseFloatQ ts with
      | none => errStep st
      | some t => afterWrite st now ts (pyRound3 ((t - 1) * rate)) vs
    else afterWrite st now ts 0 vs

/-- The quench-token check of an iteration: on the (stripped) quench marker
set `qd = 1` and record `qd_time`, then fall through to the split. -/
def procData (rate : ℚ) (st : ReadState) (now : ℚ) (data : List Char) :
    ReadState :=
  procSplit rate
    (if data = qdToken then { st with qd := true, qdTime := now } else st)
    now data

/-- One iteration of the module-level `read_data` on one read result
(`none` = the read raised) at wall-clock time `now`; `i += 1` precedes the
read, so it happens even when the read raises. -/
def read_data_iter (rate : ℚ) (st : ReadState) (now : ℚ)
    (read : Option (List Char)) : ReadState :=
  if st.running = false then st else
  match read with
  | none => errStep { st with i := st.i + 1 }
  | some raw => procData rate { st with i := st.i + 1 } now (pyStrip raw)

/-- Run the module-level acquisition loop over a list of timed read results. -/
def read_data_run (rate : ℚ) (st : ReadState) :
    List (ℚ × Option (List Char)) → ReadState
  | [] => st
  | e :: rest => read_data_run rate (read_data_iter rate st e.1 e.2) rest

/-- A read result that makes an iteration take the `except` branch before
any row is written: the read itself raised, or the line does not split into
exactly two comma-separated fields (e.g. `"garbage"`, or the bare quench
token). -/
def iterFails (read : Option (List Char)) : Bool :=
  match read with
  | none => true
  | some raw => (splitTwo (pyStrip raw)).isNone

/-- The observable actions of `stop_measurement` (QD_ui.py, lines 223-244),
in source order. -/
inductive StopAction where
  | setRunningFalse
  | enableStartButton
  | abortPSUCall
  | joinAcqThread
  | closeLogFile
  | closeInstConnection
  | showInfoBox
  deriving DecidableEq

/-- Embedding of `stop_measurement`: clear `measurement_running`, re-enable
the start button, call `PSU.abort_PSU()`, join the acquisition thread if it
is still alive, close the log file, close the meter connection, show the
completion dialog. -/
def stop_measurement_actions (threadAlive : Bool) : List StopAction :=
  [.setRunningFalse, .enableStartButton, .abortPSUCall]
  ++ (if threadAlive then [.joinAcqThread] else [])
  ++ [.closeLogFile, .closeInstConnection, .showInfoBox]

/-- The waveform step list built by `start_measurement` (QD_ui.py, lines
131-138): two 1 s settle steps at 0 A, a ramp to `maxcurrent` of duration
`maxcurrent / ramprate`, a 1 s dwell at `maxcurrent`, a ramp back to 0 A of
the same duration, and a trailing 1 s step at 0 A. -/
def waveformSteps (maxcurrent ramprate : ℚ) : List (ℚ × ℚ) :=
  [(0, 1), (0, 1),
   (maxcurrent, maxcurrent / ramprate),
   (maxcurrent, 1),
   (0, maxcurrent / ramprate),
   (0, 1)]

/-- Observable events of `start_measurement` (QD_ui.py, lines 112-152). -/
inductive RunEvent where
  | setRunningTrue
  | writeScriptToKeithley
  | sleepOne
  | openLogFile
  | writeHeader
  | startAcqThread
  | psu (c : SCPICmd)
  | startGraph
  deriving DecidableEq

/-- Number of software-trigger commands among a list of run events. -/
def countTrgEv : List RunEvent → ℕ
  | [] => 0
  | e :: r => (if e = RunEvent.psu SCPICmd.trg then 1 else 0) + countTrgEv r

/-- Number of software-trigger commands among a list of SCPI commands. -/
def countTrgCmd : List SCPICmd → ℕ
  | [] => 0
  | c :: r => (if c = SCPICmd.trg then 1 else 0) + countTrgCmd r

/-- Embedding of `start_measurement` as its sequence of observable events:
set the running flag, upload the meter script, sleep, open the log and
write its header, start the acquisition thread, program the PSU waveform
(all commands it writes appear in order), and — only if programming
returned normally — start the live graph and call `trigger_PSU`.  An
exception inside programming propagates, so the trigger is never sent in
that case; a failed `trigger_PSU` connection sends nothing. -/
def start_measurement (ramprate maxcurrent : ℚ) (progConnectOk : Bool)
    (statusReply : List Char) (errReplies : List (List Char))
    (trigConnectOk : Bool) : List RunEvent :=
  let p := program_current_wave_sequence
    ⟨waveformSteps maxcurrent ramprate, 0, CounterArg.int 1, 0, false, none⟩
    progConnectOk statusReply errReplies
  [.setRunningTrue, .writeScriptToKeithley, .sleepOne, .openLogFile,
   .writeHeader, .startAcqThread]
  ++ p.cmds.map RunEvent.psu
  ++ (match p.err with
      | some _ => []
      | none =>
        [RunEvent.startGraph]
        ++ (if trigConnectOk then trigger_PSU_cmds.map RunEvent.psu else []))

end QD_ui

/-!
Helper lemmas about the module-level acquisition loop and the PSU layer.
-/

/-- The `except` branch leaves the log unchanged. -/
@[simp] theorem QD_ui.errStep_log (st : QD_ui.ReadState) :
    (QD_ui.errStep st).log = st.log := by
  unfold QD_ui.errStep
  split <;> rfl

/-- The quench-grace check leaves the log unchanged. -/
@[simp] theorem QD_ui.quenchGate_log (st : QD_ui.ReadState) (now : ℚ) :
    (QD_ui.quenchGate st now).log = st.log := by
  unfold QD_ui.quenchGate
  split <;> rfl

/-- A row accepted by the module-level loop is appended to the log exactly
as computed, whatever happens afterwards in the iteration. -/
theorem QD_ui.afterWrite_log (st : QD_ui.ReadState) (now : ℚ) (ts : List Char)
    (a : ℚ) (vs : List Char) :
    (QD_ui.afterWrite st now ts a vs).log = st.log ++ [⟨ts, a, vs⟩] := by
  unfold QD_ui.afterWrite
  split
  · split <;> simp
  · simp

/-- The quench token does not split into two comma-separated fields. -/
theorem splitTwo_qdToken : splitTwo qdToken = none := by decide

/-- The `except` branch increments the cumulative error counter. -/
@[simp] theorem QD_ui.errStep_error (st : QD_ui.ReadState) :
    (QD_ui.errStep st).error = st.error + 1 := by
  unfold QD_ui.errStep
  split <;> rfl

/-- The `except` branch does not touch the quench flag. -/
@[simp] theorem QD_ui.errStep_qd (st : QD_ui.ReadState) :
    (QD_ui.errStep st).qd = st.qd := by
  unfold QD_ui.errStep
  split <;> rfl

/-- The `except` branch does not touch the quench timestamp. -/
@[simp] theorem QD_ui.errStep_qdTime (st : QD_ui.ReadState) :
    (QD_ui.errStep st).qdTime = st.qdTime := by
  unfold QD_ui.errStep
  split <;> rfl

/-- The running flag after the `except` branch: cleared exactly when the
incremented error counter exceeds 3. -/
theorem QD_ui.errStep_running (st : QD_ui.ReadState) :
    (QD_ui.errStep st).running
      = if st.error + 1 > 3 then false else st.running := by
  unfold QD_ui.errStep
  split <;> simp_all

/-- The stop-called flag after the `except` branch. -/
theorem QD_ui.errStep_stopCalled (st : QD_ui.ReadState) :
    (QD_ui.errStep st).stopCalled
      = if st.error + 1 > 3 then true else st.stopCalled := by
  unfold QD_ui.errStep
  split <;> simp_all

/-- When a quench was observed and more than 1 s has passed since its
timestamp, the quench-grace check clears the running flag. -/
theorem QD_ui.quenchGate_fires (st : QD_ui.ReadState) (now : ℚ)
    (h1 : st.qd = true) (h2 : st.qdTime + 1 < now) :
    (QD_ui.quenchGate st now).running = false
    ∧ (QD_ui.quenchGate st now).stoppedByQuench = true := by
  unfold QD_ui.quenchGate
  rw [if_pos ⟨h1, h2⟩]
  exact ⟨rfl, rfl⟩

/-- An accepted row whose voltage field parses terminates the loop when a
quench was observed more than 1 s before the current iteration. -/
theorem QD_ui.afterWrite_quench (st : QD_ui.ReadState) (now : ℚ)
    (ts : List Char) (a : ℚ) (vs : List Char) (v : ℚ)
    (hqd : st.qd = true) (ht : st.qdTime + 1 < now)
    (hv : parseFloatQ vs = some v) :
    (QD_ui.afterWrite st now ts a vs).running = false
    ∧ (QD_ui.afterWrite st now ts a vs).stoppedByQuench = true := by
  unfold QD_ui.afterWrite
  split
  · rw [hv]
    exact QD_ui.quenchGate_fires _ _ hqd ht
  · exact QD_ui.quenchGate_fires _ _ hqd ht

/-- An iteration whose read raised, or whose line does not split into two
fields, takes the `except` branch: the error counter increments, the log is
unchanged, and the loop stops exactly when the counter passes 3. -/
theorem QD_ui.fail_iter (rate : ℚ) (st : QD_ui.ReadState) (now : ℚ)
    (read : Option (List Char))
    (hrun : st.running = true) (hf : QD_ui.iterFails read = true) :
    (QD_ui.read_data_iter rate st now read).error = st.error + 1
    ∧ (QD_ui.read_data_iter rate st now read).running
        = (if st.error + 1 > 3 then false else true)
    ∧ (QD_ui.read_data_iter rate st now read).stopCalled
        = (if st.error + 1 > 3 then true else st.stopCalled)
    ∧ (QD_ui.read_data_iter rate st now read).log = st.log := by
  have hc : ¬(st.running = false) := by
    rw [hrun]
    decide
  unfold QD_ui.read_data_iter
  rw [if_neg hc]
  cases read with
  | none =>
    simp [QD_ui.errStep_error, QD_ui.errStep_running, QD_ui.errStep_stopCalled,
      QD_ui.errStep_log, hrun]
  | some raw =>
    have hsp : splitTwo (pyStrip raw) = none := by
      unfold QD_ui.iterFails at hf
      exact Option.isNone_iff_eq_none.mp hf
    simp only [QD_ui.procData, QD_ui.procSplit, hsp]
    split <;>
      simp [QD_ui.errStep_error, QD_ui.errStep_running,
        QD_ui.errStep_stopCalled, QD_ui.errStep_log, hrun]

/-- The trigger count distributes over appended command lists. -/
theorem QD_ui.countTrgCmd_append (l1 l2 : List SCPICmd) :
    QD_ui.countTrgCmd (l1 ++ l2)
      = QD_ui.countTrgCmd l1 + QD_ui.countTrgCmd l2 := by
  induction l1 with
  | nil => simp [QD_ui.countTrgCmd]
  | cons c r ih => simp [QD_ui.countTrgCmd, ih, Nat.add_assoc]

/-- The trigger count distributes over appended event lists. -/
theorem QD_ui.countTrgEv_append (l1 l2 : List QD_ui.RunEvent) :
    QD_ui.countTrgEv (l1 ++ l2)
      = QD_ui.countTrgEv l1 + QD_ui.countTrgEv l2 := by
  induction l1 with
  | nil => simp [QD_ui.countTrgEv]
  | cons c r ih => simp [QD_ui.countTrgEv, ih, Nat.add_assoc]

/-- Counting triggers among PSU command events is counting them among the
commands. -/
theorem QD_ui.countTrgEv_map_psu (l : List SCPICmd) :
    QD_ui.countTrgEv (l.map QD_ui.RunEvent.psu) = QD_ui.countTrgCmd l := by
  induction l with
  | nil => rfl
  | cons c r ih =>
    simp [QD_ui.countTrgEv, QD_ui.countTrgCmd, ih, QD_ui.RunEvent.psu.injEq]

/-- The error-queue drain only ever sends `SYST:ERR?` queries, never a
trigger. -/
theorem check_error_queue_cmds_trg (replies : List (List Char)) :
    QD_ui.countTrgCmd (check_error_queue replies).cmds = 0 := by
  induction replies with
  | nil => rfl
  | cons r rest ih =>
    unfold check_error_queue
    split
    · rfl
    · rfl
    · simp [QD_ui.countTrgCmd, ih]

/-- The `PROG:COUN` command derived from any counter argument is never a
trigger. -/
theorem counterCmd_ne_trg (c : CounterArg) (cc : SCPICmd)
    (h : counterCmd c = some cc) : ¬ cc = SCPICmd.trg := by
  cases c with
  | int n =>
    simp only [counterCmd, Option.some.injEq] at h
    rw [← h]
    simp
  | str s =>
    simp only [counterCmd] at h
    split at h
    · cases h
      simp
    · cases hp : parsePyInt s with
      | none => rw [hp] at h; simp at h
      | some n =>
        rw [hp] at h
        simp only [Option.map_some', Option.some.injEq] at h
        rw [← h]
        simp

/-- `program_current_wave_sequence` never writes the software trigger: the
`*TRG` of the source is commented out, and every command it does write is a
programming, configuration or query command. -/
theorem program_cmds_trg (a : ProgArgs) (ck : Bool) (sr : List Char)
    (er : List (List Char)) :
    QD_ui.countTrgCmd (program_current_wave_sequence a ck sr er).cmds = 0 := by
  unfold program_current_wave_sequence
  split
  · rfl
  · cases hcc : counterCmd a.counter with
    | none => simp [hcc, QD_ui.countTrgCmd]
    | some cc =>
      have hc1 : ¬ cc = SCPICmd.trg := counterCmd_ne_trg _ _ hcc
      cases hst : parsePyInt (pyStrip sr) with
      | none =>
        cases hs : a.store_cell <;> cases hb : a.continuous_init <;>
          simp [hcc, hst, hs, hb, QD_ui.countTrgCmd_append, QD_ui.countTrgCmd, hc1]
      | some code =>
        cases hs : a.store_cell <;> cases hb : a.continuous_init <;>
          simp [hcc, hst, hs, hb, QD_ui.countTrgCmd_append, QD_ui.countTrgCmd, hc1,
            check_error_queue_cmds_trg]

/-!
Claim theorems.
-/

/-- C1: feeding the lines `"1.000,0.010"`, `"QD"`, `"2.500,0.011"` (in that
order) through the acquisition loop produces exactly the two logged samples
shown — the quench-marker line produces no row — and the second sample's
derived current is 0; after the first two lines, i.e. before the third is
processed, the quench flag is already set. -/
theorem c1_stub_sequence_two_samples :
    (KeithleyQD_UI.read_data_run 20 KeithleyQD_UI.readInit
        [some "1.000,0.010".data, some "QD".data, some "2.500,0.011".data]).log
      = [⟨"1.000".data, 0, "0.010".data⟩, ⟨"2.500".data, 0, "0.011".data⟩]
    ∧ (KeithleyQD_UI.read_data_run 20 KeithleyQD_UI.readInit
        [some "1.000,0.010".data, some "QD".data]).log
      = [⟨"1.000".data, 0, "0.010".data⟩]
    ∧ (KeithleyQD_UI.read_data_run 20 KeithleyQD_UI.readInit
        [some "1.000,0.010".data, some "QD".data]).qd = true := by
  decide

/-- C3 counterexample: after the quench marker (read at time 0) the loop is
fed only malformed lines, at times 2 and 3 — far beyond the claimed bound of
1 s plus one 10 ms polling period.  The quench flag and timestamp are set,
yet the loop has not self-terminated: the running flag is still true and
neither stop path has fired, because the quench-grace check is only
reachable after a successfully parsed line. -/
theorem c3_counterexample :
    (QD_ui.read_data_run 20 QD_ui.readInit
        [(0, some "QD".data), (2, some "garbage".data),
         (3, some "garbage".data)]).qd = true
    ∧ (QD_ui.read_data_run 20 QD_ui.readInit
        [(0, some "QD".data), (2, some "garbage".data),
         (3, some "garbage".data)]).qdTime = 0
    ∧ (QD_ui.read_data_run 20 QD_ui.readInit
        [(0, some "QD".data), (2, some "garbage".data),
         (3, some "garbage".data)]).running = true
    ∧ (QD_ui.read_data_run 20 QD_ui.readInit
        [(0, some "QD".data), (2, some "garbage".data),
         (3, some "garbage".data)]).stopCalled = false
    ∧ (QD_ui.read_data_run 20 QD_ui.readInit
        [(0, some "QD".data), (2, some "garbage".data),
         (3, some "garbage".data)]).stoppedByQuench = false := by
  decide

/-- C4 counterexample: three consecutive malformed `"garbage"` lines from a
fresh loop state bring the cumulative error counter to 3 but do NOT
terminate the loop: the threshold test is `error > 3`, so the loop is still
running and `stop_measurement` has not been called. -/
theorem c4_counterexample :
    (QD_ui.read_data_run 20 QD_ui.readInit
        [(0, some "garbage".data), (1, some "garbage".data),
         (2, some "garbage".data)]).error = 3
    ∧ (QD_ui.read_data_run 20 QD_ui.readInit
        [(0, some "garbage".data), (1, some "garbage".data),
         (2, some "garbage".data)]).running = true
    ∧ (QD_ui.read_data_run 20 QD_ui.readInit
        [(0, some "garbage".data), (1, some "garbage".data),
         (2, some "garbage".data)]).stopCalled = false := by
  decide

/-- C5 counterexample: an error-queue reply `"garbage"` whose first field
does not parse as an integer makes `check_error_queue` print a diagnostic
and break out of the drain loop, after which `program_current_wave_sequence`
returns normally (`err = none`): the programming operation is NOT aborted. -/
theorem c5_counterexample :
    (check_error_queue ["garbage".data]).outcome
      = DrainOutcome.unparseable "garbage".data
    ∧ (check_error_queue ["garbage".data]).printed
      = [Diag.unexpectedErrResp "garbage".data]
    ∧ (program_current_wave_sequence
        ⟨QD_ui.waveformSteps 500 20, 0, CounterArg.int 1, 0, false, none⟩
        true "2056".data ["garbage".data]).err = none := by
  decide

/-- C6 counterexample: in `stop_measurement` the PSU abort occurs at
position 2 of the action sequence while the join on the acquisition thread
occurs at position 3, so the coordinator aborts the source BEFORE joining,
not after as claimed. -/
theorem c6_counterexample :
    (QD_ui.stop_measurement_actions true).indexOf QD_ui.StopAction.abortPSUCall = 2
    ∧ (QD_ui.stop_measurement_actions true).indexOf QD_ui.StopAction.joinAcqThread = 3 := by
  decide

/-- C6 amended: on the stop path the coordinator clears the running flag
first, then aborts the source, then blocks joining the acquisition thread,
and only after the join closes the log file and the meter connection — so
no loop write to the log or meter connection can happen after those
resources are released. -/
theorem c6_join_precedes_teardown :
    (QD_ui.stop_measurement_actions true).indexOf QD_ui.StopAction.setRunningFalse = 0
    ∧ (QD_ui.stop_measurement_actions true).indexOf QD_ui.StopAction.abortPSUCall
        < (QD_ui.stop_measurement_actions true).indexOf QD_ui.StopAction.joinAcqThread
    ∧ (QD_ui.stop_measurement_actions true).indexOf QD_ui.StopAction.joinAcqThread
        < (QD_ui.stop_measurement_actions true).indexOf QD_ui.StopAction.closeLogFile
    ∧ (QD_ui.stop_measurement_actions true).indexOf QD_ui.StopAction.joinAcqThread
        < (QD_ui.stop_measurement_actions true).indexOf QD_ui.StopAction.closeInstConnection := by
  decide

/-- C8: `abort_PSU` always writes exactly the abort-sequence, output-off and
trailing-trigger commands; the written sequence is identical across
successive calls, does not depend on anything the instrument sends back (so
instrument-side rejection cannot raise), and only a failed connection
raises. -/
theorem c8_abort_idempotent (r r' : List (List Char)) :
    abort_PSU true r = .ok [.abor, .outpOff, .trg]
    ∧ abort_PSU true r' = .ok [.abor, .outpOff, .trg]
    ∧ abort_PSU false r = .error .transport :=
  ⟨rfl, rfl, rfl⟩

/-- C9: for positive ramp rate and maximum current every step of the derived
waveform has a strictly positive duration; the two ramp steps (third and
fifth) last exactly `max_current / ramp_rate` and the remaining four steps
are the fixed 1 s dwell/settle steps. -/
theorem c9_waveform_durations (ramprate maxcurrent : ℚ)
    (hr : 0 < ramprate) (hm : 0 < maxcurrent) :
    (∀ s ∈ QD_ui.waveformSteps maxcurrent ramprate, 0 < s.2)
    ∧ (QD_ui.waveformSteps maxcurrent ramprate).map Prod.snd
        = [1, 1, maxcurrent / ramprate, 1, maxcurrent / ramprate, 1] := by
  constructor
  · intro s hs
    have hd : (0 : ℚ) < maxcurrent / ramprate := div_pos hm hr
    simp only [QD_ui.waveformSteps, List.mem_cons, List.mem_singleton,
      List.not_mem_nil, or_false] at hs
    rcases hs with rfl | rfl | rfl | rfl | rfl | rfl <;> norm_num [hd]
  · rfl

/-- C2: a line accepted by the acquisition loop — two comma-separated fields
whose timestamp field parses when it is needed — appends exactly one row to
the log, and its derived current is 0 if a quench marker has already been
observed in this run and `round((t - 1) * ramp_rate, 3)` otherwise. -/
theorem c2_derived_current (rate now t : ℚ) (st : QD_ui.ReadState)
    (raw ts vs : List Char)
    (hrun : st.running = true)
    (hsplit : splitTwo (pyStrip raw) = some (ts, vs))
    (hparse : st.qd = false → parseFloatQ ts = some t) :
    (QD_ui.read_data_iter rate st now (some raw)).log
      = st.log ++ [⟨ts, if st.qd = true then 0 else pyRound3 ((t - 1) * rate), vs⟩] := by
  have hc : ¬(st.running = false) := by rw [hrun]; decide
  have hne : ¬(pyStrip raw = qdToken) := by
    intro h
    rw [h, splitTwo_qdToken] at hsplit
    cases hsplit
  unfold QD_ui.read_data_iter QD_ui.procData
  rw [if_neg hc]
  dsimp only
  rw [if_neg hne]
  unfold QD_ui.procSplit
  simp only [hsplit]
  cases hq : st.qd <;> simp [hq, hparse, QD_ui.afterWrite_log]

/-- C2 witness: the line `"2.000,0.010"` read before any quench at ramp rate
20 A/s logs one row with derived current `round((2 - 1) * 20, 3)`. -/
theorem c2_derived_current_witness :
    QD_ui.readInit.running = true
    ∧ splitTwo (pyStrip "2.000,0.010".data) = some ("2.000".data, "0.010".data)
    ∧ (QD_ui.readInit.qd = false → parseFloatQ "2.000".data = some 2)
    ∧ (QD_ui.read_data_iter 20 QD_ui.readInit 0 (some "2.000,0.010".data)).log
      = QD_ui.readInit.log
        ++ [⟨"2.000".data,
             if QD_ui.readInit.qd = true then 0 else pyRound3 ((2 - 1) * 20),
             "0.010".data⟩] :=
  ⟨rfl, by decide, fun _ => by decide,
   c2_derived_current 20 0 2 QD_ui.readInit "2.000,0.010".data "2.000".data
     "0.010".data rfl (by decide) (fun _ => by decide)⟩

/-- C3 amended: the quench-grace termination fires only when a
classification-valid line (two fields, with a parseable voltage field) is
processed more than 1 s after the recorded quench timestamp; at such an
iteration the loop clears its running flag via the quench path.  With no
further valid lines the quench path never fires (see the counterexample):
only the error-threshold path can then stop the loop. -/
theorem c3_quench_grace_on_valid_line (rate now v : ℚ) (st : QD_ui.ReadState)
    (raw ts vs : List Char)
    (hrun : st.running = true) (hqd : st.qd = true)
    (hsplit : splitTwo (pyStrip raw) = some (ts, vs))
    (hv : parseFloatQ vs = some v)
    (ht : st.qdTime + 1 < now) :
    (QD_ui.read_data_iter rate st now (some raw)).running = false
    ∧ (QD_ui.read_data_iter rate st now (some raw)).stoppedByQuench = true := by
  have hc : ¬(st.running = false) := by rw [hrun]; decide
  have hne : ¬(pyStrip raw = qdToken) := by
    intro h
    rw [h, splitTwo_qdToken] at hsplit
    cases hsplit
  unfold QD_ui.read_data_iter QD_ui.procData
  rw [if_neg hc]
  dsimp only
  rw [if_neg hne]
  unfold QD_ui.procSplit
  simp only [hsplit]
  have h2 : ¬(({ st with i := st.i + 1 } : QD_ui.ReadState).qd = false) := by
    simp [hqd]
  rw [if_neg h2]
  exact QD_ui.afterWrite_quench _ _ _ _ _ _ hqd ht hv

/-- C3 witness: with the quench flag set at timestamp 0, the valid line
`"5.000,0.010"` processed at time 2 terminates the loop via the quench
path. -/
theorem c3_quench_grace_on_valid_line_witness :
    ((⟨0, true, 0, 0, true, false, false, [], [], []⟩ : QD_ui.ReadState).running = true)
    ∧ ((⟨0, true, 0, 0, true, false, false, [], [], []⟩ : QD_ui.ReadState).qd = true)
    ∧ splitTwo (pyStrip "5.000,0.010".data) = some ("5.000".data, "0.010".data)
    ∧ parseFloatQ "0.010".data = some (1 / 100)
    ∧ ((⟨0, true, 0, 0, true, false, false, [], [], []⟩ : QD_ui.ReadState).qdTime + 1 < 2)
    ∧ (QD_ui.read_data_iter 20 ⟨0, true, 0, 0, true, false, false, [], [], []⟩ 2
        (some "5.000,0.010".data)).running = false
    ∧ (QD_ui.read_data_iter 20 ⟨0, true, 0, 0, true, false, false, [], [], []⟩ 2
        (some "5.000,0.010".data)).stoppedByQuench = true :=
  ⟨rfl, rfl, by decide, by decide, by decide,
   (c3_quench_grace_on_valid_line 20 2 (1 / 100)
     ⟨0, true, 0, 0, true, false, false, [], [], []⟩ "5.000,0.010".data
     "5.000".data "0.010".data rfl rfl (by decide) (by decide) (by decide)).1,
   (c3_quench_grace_on_valid_line 20 2 (1 / 100)
     ⟨0, true, 0, 0, true, false, false, [], [], []⟩ "5.000,0.010".data
     "5.000".data "0.010".data rfl rfl (by decide) (by decide) (by decide)).2⟩

/-- C4 amended: FOUR failing iterations are needed, not three.  From a
running state with a zero error counter — quench state arbitrary — four
reads that raise or fail the two-field split drive the cumulative counter
past the `error > 3` threshold, upon which the loop invokes
`stop_measurement` and stops.  (The counter is never reset by a successful
iteration, so the four failures need not even be consecutive.) -/
theorem c4_four_failures_stop (rate t1 t2 t3 t4 : ℚ) (st : QD_ui.ReadState)
    (r1 r2 r3 r4 : Option (List Char))
    (hrun : st.running = true) (herr : st.error = 0)
    (h1 : QD_ui.iterFails r1 = true) (h2 : QD_ui.iterFails r2 = true)
    (h3 : QD_ui.iterFails r3 = true) (h4 : QD_ui.iterFails r4 = true) :
    (QD_ui.read_data_run rate st
        [(t1, r1), (t2, r2), (t3, r3), (t4, r4)]).running = false
    ∧ (QD_ui.read_data_run rate st
        [(t1, r1), (t2, r2), (t3, r3), (t4, r4)]).stopCalled = true := by
  simp only [QD_ui.read_data_run]
  obtain ⟨e1, u1, -, -⟩ := QD_ui.fail_iter rate st t1 r1 hrun h1
  rw [herr] at e1 u1
  norm_num at u1
  obtain ⟨e2, u2, -, -⟩ :=
    QD_ui.fail_iter rate (QD_ui.read_data_iter rate st t1 r1) t2 r2 u1 h2
  rw [e1] at e2 u2
  norm_num at u2
  obtain ⟨e3, u3, -, -⟩ :=
    QD_ui.fail_iter rate
      (QD_ui.read_data_iter rate (QD_ui.read_data_iter rate st t1 r1) t2 r2)
      t3 r3 u2 h3
  rw [e2] at e3 u3
  norm_num at u3
  obtain ⟨-, u4, s4, -⟩ :=
    QD_ui.fail_iter rate
      (QD_ui.read_data_iter rate
        (QD_ui.read_data_iter rate (QD_ui.read_data_iter rate st t1 r1) t2 r2)
        t3 r3)
      t4 r4 u3 h4
  rw [e3] at u4 s4
  norm_num at u4 s4
  exact ⟨u4, s4⟩

/-- C4 witness: four `"garbage"` lines from a fresh state stop the loop via
the error-threshold path. -/
theorem c4_four_failures_stop_witness :
    QD_ui.readInit.running = true ∧ QD_ui.readInit.error = 0
    ∧ QD_ui.iterFails (some "garbage".data) = true
    ∧ (QD_ui.read_data_run 20 QD_ui.readInit
        [(0, some "garbage".data), (1, some "garbage".data),
         (2, some "garbage".data), (3, some "garbage".data)]).running = false
    ∧ (QD_ui.read_data_run 20 QD_ui.readInit
        [(0, some "garbage".data), (1, some "garbage".data),
         (2, some "garbage".data), (3, some "garbage".data)]).stopCalled = true :=
  ⟨rfl, rfl, by decide,
   (c4_four_failures_stop 20 0 1 2 3 QD_ui.readInit _ _ _ _ rfl rfl
     (by decide) (by decide) (by decide) (by decide)).1,
   (c4_four_failures_stop 20 0 1 2 3 QD_ui.readInit _ _ _ _ rfl rfl
     (by decide) (by decide) (by decide) (by decide)).2⟩

/-- C5 amended: an error-queue entry whose first comma-separated field does
not parse as an integer makes the drain print an "unexpected response"
diagnostic and BREAK out of the polling loop — unlike a non-zero code, which
logs and continues polling — after which the programming operation completes
normally; it is not aborted. -/
theorem c5_unparseable_breaks_drain (a : ProgArgs) (cc : SCPICmd)
    (code : ℤ) (sr r : List Char) (rest : List (List Char))
    (hcc : counterCmd a.counter = some cc)
    (hst : parsePyInt (pyStrip sr) = some code)
    (hr : parsePyInt (firstField (pyStrip r)) = none) :
    check_error_queue (r :: rest)
      = ⟨[.systErrQ], [.unexpectedErrResp (pyStrip r)], .unparseable (pyStrip r)⟩
    ∧ (program_current_wave_sequence a true sr (r :: rest)).err = none := by
  have hq : check_error_queue (r :: rest)
      = ⟨[.systErrQ], [.unexpectedErrResp (pyStrip r)], .unparseable (pyStrip r)⟩ := by
    unfold check_error_queue
    simp only [hr]
  refine ⟨hq, ?_⟩
  unfold program_current_wave_sequence
  simp [hcc, hst, hq]

/-- C5 witness: with a well-formed status reply and the single error-queue
reply `"garbage"`, the drain breaks with a diagnostic and programming
completes normally. -/
theorem c5_unparseable_breaks_drain_witness :
    counterCmd (CounterArg.int 1) = some (SCPICmd.progCoun 1)
    ∧ parsePyInt (pyStrip "2056".data) = some 2056
    ∧ parsePyInt (firstField (pyStrip "garbage".data)) = none
    ∧ check_error_queue ["garbage".data]
      = ⟨[.systErrQ], [.unexpectedErrResp (pyStrip "garbage".data)],
         .unparseable (pyStrip "garbage".data)⟩
    ∧ (program_current_wave_sequence
        ⟨QD_ui.waveformSteps 500 20, 0, CounterArg.int 1, 0, false, none⟩
        true "2056".data ["garbage".data]).err = none :=
  ⟨by decide, by decide, by decide,
   (c5_unparseable_breaks_drain
     ⟨QD_ui.waveformSteps 500 20, 0, CounterArg.int 1, 0, false, none⟩
     (SCPICmd.progCoun 1) 2056 "2056".data "garbage".data [] (by decide)
     (by decide) (by decide)).1,
   (c5_unparseable_breaks_drain
     ⟨QD_ui.waveformSteps 500 20, 0, CounterArg.int 1, 0, false, none⟩
     (SCPICmd.progCoun 1) 2056 "2056".data "garbage".data [] (by decide)
     (by decide) (by decide)).2⟩

/-- C7: in `start_measurement` the software trigger is written at most once;
the first six events are fixed and end with the start of the acquisition
thread, and none of them writes a trigger — so any trigger write happens
only after the acquisition thread has been started; and
`program_current_wave_sequence` itself never writes the trigger command. -/
theorem c7_trigger_once_after_thread (ramprate maxcurrent : ℚ)
    (progConnectOk trigConnectOk : Bool) (statusReply : List Char)
    (errReplies : List (List Char)) :
    QD_ui.countTrgEv (QD_ui.start_measurement ramprate maxcurrent progConnectOk
        statusReply errReplies trigConnectOk) ≤ 1
    ∧ (QD_ui.start_measurement ramprate maxcurrent progConnectOk
        statusReply errReplies trigConnectOk).take 6
      = [.setRunningTrue, .writeScriptToKeithley, .sleepOne, .openLogFile,
         .writeHeader, .startAcqThread]
    ∧ QD_ui.countTrgEv ((QD_ui.start_measurement ramprate maxcurrent
        progConnectOk statusReply errReplies trigConnectOk).take 6) = 0
    ∧ QD_ui.countTrgCmd (program_current_wave_sequence
        ⟨QD_ui.waveformSteps maxcurrent ramprate, 0, CounterArg.int 1, 0, false,
         none⟩ progConnectOk statusReply errReplies).cmds = 0 := by
  have hp := program_cmds_trg
    ⟨QD_ui.waveformSteps maxcurrent ramprate, 0, CounterArg.int 1, 0, false, none⟩
    progConnectOk statusReply errReplies
  refine ⟨?_, rfl, rfl, hp⟩
  simp only [QD_ui.start_measurement]
  cases hpe : (program_current_wave_sequence
      ⟨QD_ui.waveformSteps maxcurrent ramprate, 0, CounterArg.int 1, 0, false,
       none⟩ progConnectOk statusReply errReplies).err with
  | some e =>
    simp [hpe, QD_ui.countTrgEv_append, QD_ui.countTrgEv_map_psu, hp,
      QD_ui.countTrgEv]
  | none =>
    cases trigConnectOk <;>
      simp [hpe, QD_ui.countTrgEv_append, QD_ui.countTrgEv_map_psu, hp,
        QD_ui.countTrgEv, trigger_PSU_cmds, QD_ui.countTrgCmd]

/-- C10: a quench-marker line in the module-level loop is not skipped after
setting the quench flag: it records the flag and timestamp, then falls
through to the two-field split, which fails and takes the `except` branch —
so the single marker line also increments the error counter by one and
writes no log row. -/
theorem c10_qd_line_flag_error_no_row (rate now : ℚ) (st : QD_ui.ReadState)
    (raw : List Char)
    (hrun : st.running = true)
    (hqd : pyStrip raw = qdToken) :
    (QD_ui.read_data_iter rate st now (some raw)).qd = true
    ∧ (QD_ui.read_data_iter rate st now (some raw)).qdTime = now
    ∧ (QD_ui.read_data_iter rate st now (some raw)).error = st.error + 1
    ∧ (QD_ui.read_data_iter rate st now (some raw)).log = st.log := by
  have hc : ¬(st.running = false) := by rw [hrun]; decide
  unfold QD_ui.read_data_iter QD_ui.procData
  rw [if_neg hc]
  dsimp only
  rw [hqd, if_pos rfl]
  unfold QD_ui.procSplit
  simp only [splitTwo_qdToken]
  simp [QD_ui.errStep_error, QD_ui.errStep_qd, QD_ui.errStep_qdTime,
    QD_ui.errStep_log]

/-- C10 witness: the line `" QD\n"` (stripping to the marker) read at time 7
from a fresh state sets the flag and timestamp, increments the error counter
and logs nothing. -/
theorem c10_qd_line_flag_error_no_row_witness :
    QD_ui.readInit.running = true
    ∧ pyStrip " QD\n".data = qdToken
    ∧ (QD_ui.read_data_iter 20 QD_ui.readInit 7 (some " QD\n".data)).qd = true
    ∧ (QD_ui.read_data_iter 20 QD_ui.readInit 7 (some " QD\n".data)).qdTime = 7
    ∧ (QD_ui.read_data_iter 20 QD_ui.readInit 7 (some " QD\n".data)).error
        = QD_ui.readInit.error + 1
    ∧ (QD_ui.read_data_iter 20 QD_ui.readInit 7 (some " QD\n".data)).log
        = QD_ui.readInit.log :=
  ⟨rfl, by decide,
   (c10_qd_line_flag_error_no_row 20 7 QD_ui.readInit " QD\n".data rfl (by decide)).1,
   (c10_qd_line_flag_error_no_row 20 7 QD_ui.readInit " QD\n".data rfl (by decide)).2.1,
   (c10_qd_line_flag_error_no_row 20 7 QD_ui.readInit " QD\n".data rfl (by decide)).2.2.1,
   (c10_qd_line_flag_error_no_row 20 7 QD_ui.readInit " QD\n".data rfl (by decide)).2.2.2⟩

/-- C9 witness: the defaults ramp rate 20 A/s and max current 500 A give
strictly positive durations and ramp steps of exactly 25 s. -/
theorem c9_waveform_durations_witness :
    ((0 : ℚ) < 20) ∧ ((0 : ℚ) < 500)
    ∧ (∀ s ∈ QD_ui.waveformSteps 500 20, 0 < s.2)
    ∧ (QD_ui.waveformSteps 500 20).map Prod.snd = [1, 1, 25, 1, 25, 1] := by
  refine ⟨by norm_num, by norm_num,
    (c9_waveform_durations 20 500 (by norm_num) (by norm_num)).1, ?_⟩
  have h := (c9_waveform_durations 20 500 (by norm_num) (by norm_num)).2
  rw [h]
  norm_num

end LN2
